import Mathlib

/-!
Shallow embedding of the `meta_learning_pacoh` repository.

This file embeds the two trainer classes of the repository —
`GPRegressionMetaLearned` (src/GPR_meta_mll.py) and
`GPRegressionLearnedSVGD` (src/GPR_mll_svgd.py) — closely following the
Python source.  Numeric tensor values are modelled over `ℚ`; the external
numerical substrate (autodiff, the Adam/SGD update rule, the GP marginal
likelihood computed by gpytorch) is abstracted as explicit function
parameters, while the control flow, the assertions, the shapes and the
event order of the repository code are embedded faithfully.
-/

namespace PacohGP

/-! Numpy arrays (1-D and 2-D), at the level of values -/

/-- A numpy array as the repository uses them: either 1-D of shape `(n,)`
or 2-D of shape `(n, d)` (row-major list of rows). -/
inductive NPArray where
  | one (xs : List ℚ)
  | two (xss : List (List ℚ))
deriving DecidableEq, Repr

namespace NPArray

/-- Number of dimensions, `arr.ndim` in numpy. -/
def ndim : NPArray → ℕ
  | one _ => 1
  | two _ => 2

/-- Leading dimension `arr.shape[0]`. -/
def rows : NPArray → ℕ
  | one xs => xs.length
  | two xss => xss.length

/-- Second dimension `arr.shape[1]` of a 2-D array (the feature
dimension); rectangular arrays are assumed, as numpy guarantees. -/
def cols : NPArray → ℕ
  | one _ => 0
  | two xss => (xss.headD []).length

/-- Reshape of `np.expand_dims(x, axis=-1)` on a 1-D array: `(n,)`
becomes `(n, 1)`; a 2-D array is returned unchanged (the repository only
applies this to 1-D arrays). -/
def expandDimsLast : NPArray → NPArray
  | one xs => two (xs.map fun a => [a])
  | two xss => two xss

/-- View an array as its list of rows (a 1-D array as a column, matching
how the repository always reshapes 1-D data before use). -/
def toMatrix : NPArray → List (List ℚ)
  | one xs => xs.map fun a => [a]
  | two xss => xss

end NPArray

/-- Modelled from the spec: `src.util._handle_input_dimensionality` is
imported by both trainers but its file is not part of the sources; §6 of
the spec describes it as "a shared normalization routine \x7breshapes
1-D inputs to (n,1) and validates matching leading dimensions\x7d".
We reshape a 1-D `x` (and a 1-D `t`) to a column and require the leading
dimensions of inputs and targets to agree, failing otherwise. -/
def handleInputDimensionality (x t : NPArray) : Option (NPArray × NPArray) :=
  let x2 := x.expandDimsLast
  let t2 := t.expandDimsLast
  if x2.rows = t2.rows then some (x2, t2) else none

/-! Embedding of `GPRegressionMetaLearned.__init__` (src/GPR_meta_mll.py, lines 13-75) -/

/-- The `learning_mode` argument; the constructor asserts membership in
`['learn_mean', 'learn_kernel', 'both', 'vanilla']`, so only those four
strings are representable. -/
inductive LearningMode where
  | learn_mean | learn_kernel | both | vanilla
deriving DecidableEq, Repr

/-- The `mean_module` argument: one of the strings `'NN'`, `'constant'`,
`'zero'`, or a pre-built `gpytorch.means.Mean` instance (`custom`). -/
inductive MeanModuleArg where
  | NN | constant | zero | custom
deriving DecidableEq, Repr

/-- The `covar_module` argument: one of the strings `'NN'`, `'SE'`, or a
pre-built `gpytorch.kernels.Kernel` instance (`custom`). -/
inductive CovarModuleArg where
  | NN | SE | custom
deriving DecidableEq, Repr

/-- A parameter group appended to `self.shared_parameters` in
`_setup_gp_prior`: the kernel feature-map network's parameters or the
mean network's parameters. -/
inductive ParamGroup where
  | kernelNN | meanNN
deriving DecidableEq, Repr

/-- List `self.shared_parameters` as built by `_setup_gp_prior` (lines
221-245): the kernel-NN group is appended when `covar_module is 'NN'`,
then the mean-NN group is appended when `mean_module is 'NN'`. -/
def sharedParametersOf (mm : MeanModuleArg) (cm : CovarModuleArg) : List ParamGroup :=
  (if cm = CovarModuleArg.NN then [ParamGroup.kernelNN] else []) ++
  (if mm = MeanModuleArg.NN then [ParamGroup.meanNN] else [])

/-- The two assertions of `_setup_gp_prior` (lines 225 and 242): a
neural-network covariance module requires `learning_mode` in
`['learn_kernel', 'both']` and a neural-network mean module requires
`learning_mode` in `['learn_mean', 'both']`. -/
def setupGPPriorOk (lm : LearningMode) (mm : MeanModuleArg) (cm : CovarModuleArg) : Bool :=
  (if cm = CovarModuleArg.NN then
    decide (lm = LearningMode.learn_kernel ∨ lm = LearningMode.both) else true) &&
  (if mm = MeanModuleArg.NN then
    decide (lm = LearningMode.learn_mean ∨ lm = LearningMode.both) else true)

/-- Errors raised by the `GPRegressionMetaLearned` constructor, in the
order the corresponding statements execute in `__init__`. -/
inductive InitError where
  | handlerError   -- `_handle_input_dimensionality` fails inside the loop, line 41
  | emptyData      -- `meta_train_data[0]` raises IndexError, line 42
  | dimMismatch    -- assert all same input dim, line 43
  | roleAssert     -- 'neural network parameters must be learned', lines 225/242
deriving DecidableEq, Repr

/-- The in-place rewriting loop of `__init__` (lines 40-41):
`meta_train_data[i] = _handle_input_dimensionality(*meta_train_data[i])`.
Returns the contents of the caller's list after the loop together with a
success flag; when the handler raises at index `i`, elements before `i`
have already been replaced and the tail is left untouched. -/
def handleLoop : List (NPArray × NPArray) → List (NPArray × NPArray) × Bool
  | [] => ([], true)
  | p :: rest =>
    match handleInputDimensionality p.1 p.2 with
    | some p' => let r := handleLoop rest; (p' :: r.1, r.2)
    | none => (p :: rest, false)

/-- The contents of the caller-supplied `meta_train_data` list after
`GPRegressionMetaLearned.__init__` returns (or raises): the constructor's
first loop rewrites the list in place, element by element. -/
def gprMetaInitDataEffect (data : List (NPArray × NPArray)) : List (NPArray × NPArray) :=
  (handleLoop data).1

/-- The state of a constructed `GPRegressionMetaLearned`, over an
abstract type `Θ` of shared-parameter stores (the tensors of the
`NeuralNetwork` feature maps). -/
structure MetaModel (Θ : Type) where
  input_dim : ℕ
  num_iter_fit : ℕ
  sharedParameters : List ParamGroup
  /-- per-task training data, as rewritten by the handler loop -/
  tasks : List (NPArray × NPArray)
  /-- the shared-parameter store -/
  θ : Θ
  fitted : Bool
deriving Repr

/-- Constructor `GPRegressionMetaLearned.__init__` (lines 13-75) at the level of this
embedding: the three argument assertions always hold for the
representable argument types; the data loop rewrites `meta_train_data`;
`input_dim` is read off the first task (IndexError when the list is
empty); all tasks must share that input dimension; `_setup_gp_prior`
asserts the NN/learning-mode compatibility and builds
`shared_parameters`; `fitted` starts out `False`.  `θ0` stands for the
fresh network parameter tensors. -/
def gprMetaInit {Θ : Type} (θ0 : Θ) (data : List (NPArray × NPArray))
    (lm : LearningMode) (mm : MeanModuleArg) (cm : CovarModuleArg)
    (num_iter_fit : ℕ) : Except InitError (MetaModel Θ) :=
  let r := handleLoop data
  if r.2 then
    match r.1 with
    | [] => Except.error InitError.emptyData
    | t0 :: rest =>
      if (t0 :: rest).all fun t => t.1.cols = t0.1.cols then
        if setupGPPriorOk lm mm cm then
          Except.ok { input_dim := t0.1.cols
                      num_iter_fit := num_iter_fit
                      sharedParameters := sharedParametersOf mm cm
                      tasks := t0 :: rest
                      θ := θ0
                      fitted := false }
        else Except.error InitError.roleAssert
      else Except.error InitError.dimMismatch
  else Except.error InitError.handlerError

/-- Well-formedness of the constructor's data argument: the handler loop
succeeds, the list is non-empty, and every task shares the first task's
input dimension (the checks of `__init__` that precede
`_setup_gp_prior`). -/
def metaDataOk (data : List (NPArray × NPArray)) : Bool :=
  let r := handleLoop data
  r.2 &&
    match r.1 with
    | [] => false
    | t0 :: rest => (t0 :: rest).all fun t => t.1.cols = t0.1.cols

/-! Embedding of `GPRegressionMetaLearned.meta_fit` (src/GPR_meta_mll.py, lines 78-130) -/

/-- Events observable on the torch substrate during one `meta_fit` call:
`optimizer.zero_grad()` (line 96), `loss.backward()` with the loss value
it is called on (line 105), and `optimizer.step()` (line 106). -/
inductive MetaEvent where
  | zeroGrad
  | backward (loss : ℚ)
  | optStep
deriving DecidableEq, Repr

/-- The loss accumulation of one iteration (lines 97-103): `loss = 0.0`,
then for every task in order `loss -= mll / train_x.shape[0]`.  `mllOf i`
is the exact marginal log-likelihood gpytorch returns for task `i` at the
current shared parameters, and `ns` lists each task's sample count. -/
def metaIterLoss (mllOf : ℕ → ℚ) (ns : List ℕ) : ℚ :=
  ns.enum.foldl (fun acc p => acc - mllOf p.1 / (p.2 : ℚ)) 0

/-- The training loop of `meta_fit` (lines 94-122) run for `k` remaining
iterations starting at iteration number `itr`: each iteration zeroes the
gradients, accumulates the loss, backpropagates it and applies one
optimizer step.  `opt itr` is the in-place Adam update the optimizer
applies to the shared parameters at iteration `itr`; `mll itr i` is task
`i`'s marginal log-likelihood at iteration `itr`.  Returns the final
shared parameters and the event trace. -/
def metaFitLoop {Θ : Type} (opt : ℕ → Θ → Θ) (mll : ℕ → ℕ → ℚ) (ns : List ℕ) :
    ℕ → ℕ → Θ → Θ × List MetaEvent
  | 0, _, θ => (θ, [])
  | k + 1, itr, θ =>
    let loss := metaIterLoss (mll itr) ns
    let θ' := opt itr θ
    let r := metaFitLoop opt mll ns k (itr + 1) θ'
    (r.1, MetaEvent.zeroGrad :: MetaEvent.backward loss :: MetaEvent.optStep :: r.2)

/-- Line 89's assertion: `valid_tuples` is `None` or every tuple has
length 4.  Only the tuple arities matter for the assertion. -/
def validTuplesOk : Option (List ℕ) → Bool
  | none => true
  | some ls => ls.all fun l => l = 4

/-- The observable outcome of a `meta_fit` call: final shared parameters,
the `fitted` flag, the per-task model training-mode flags and the
likelihood training-mode flag (`true` = training mode), and the torch
event trace. -/
structure MetaFitResult (Θ : Type) where
  θ : Θ
  fitted : Bool
  modelTraining : List Bool
  likTraining : Bool
  trace : List MetaEvent
deriving Repr

/-- Method `GPRegressionMetaLearned.meta_fit` (lines 78-130): set every task
model and the likelihood to training mode, assert the `valid_tuples`
arities, run the gradient loop when `shared_parameters` is non-empty
(otherwise only print 'Vanilla mode - nothing to fit'), then set
`fitted = True` and put every task model and the likelihood into
evaluation mode. -/
def metaFit {Θ : Type} (opt : ℕ → Θ → Θ) (mll : ℕ → ℕ → ℚ)
    (validTupleArities : Option (List ℕ)) (m : MetaModel Θ) :
    Except Unit (MetaFitResult Θ) :=
  if !validTuplesOk validTupleArities then throw ()
  else
    let r :=
      if m.sharedParameters.length > 0 then
        metaFitLoop opt mll (m.tasks.map fun t => t.1.rows) m.num_iter_fit 1 m.θ
      else (m.θ, [])
    .ok { θ := r.1
          fitted := true
          modelTraining := m.tasks.map fun _ => false
          likTraining := false
          trace := r.2 }

/-! Embedding of `GPRegressionMetaLearned.predict` (src/GPR_meta_mll.py, lines 134-172) -/

/-- Errors raised by `GPRegressionMetaLearned.predict`, in the order the
corresponding statements execute. -/
inductive PredictError where
  | contextHandlerError   -- `_handle_input_dimensionality` on the context data
  | shapeMismatch         -- assert test_x.shape[1] == test_context_x.shape[1], line 151
deriving DecidableEq, Repr

/-- Method `GPRegressionMetaLearned.predict` (lines 134-172): pass the
context data through `_handle_input_dimensionality`, reshape a 1-D query
to a column (line 150), assert that the query's feature dimension equals
the context's (line 151), and only then build the posterior GP model on
the context and evaluate the likelihood's predictive distribution at the
query points.  The whole GP computation (lines 153-167) is abstracted as
the oracle `gp`, mapping the shared parameters, the context rows, the
flattened context targets and the query rows to the predicted
`(mean, std)` arrays; it is applied only after the shape assertion has
passed. -/
def gprMetaPredict {Θ : Type}
    (gp : Θ → List (List ℚ) → List ℚ → List (List ℚ) → List ℚ × List ℚ)
    (m : MetaModel Θ) (ctx_x ctx_t test_x : NPArray) :
    Except PredictError (List ℚ × List ℚ) :=
  match handleInputDimensionality ctx_x ctx_t with
  | none => Except.error PredictError.contextHandlerError
  | some (cx, ct) =>
    let tx := if test_x.ndim = 1 then test_x.expandDimsLast else test_x
    if tx.cols = cx.cols then
      Except.ok (gp m.θ cx.toMatrix ct.toMatrix.flatten tx.toMatrix)
    else Except.error PredictError.shapeMismatch

/-! Embedding of `GPRegressionLearnedSVGD` (src/GPR_mll_svgd.py) -/

/-- The `kernel` argument: line 44 asserts membership in `['RBF', 'IMQ']`. -/
inductive SteinKernelArg where
  | RBF | IMQ
deriving DecidableEq, Repr

/-- The `optimizer` argument: lines 180-185 accept `'Adam'` or `'SGD'`
and raise otherwise. -/
inductive OptimizerArg where
  | Adam | SGD
deriving DecidableEq, Repr

/-- The `mean_module` string: line 157 asserts membership in
`['NN', 'constant']`. -/
inductive SVGDMeanArg where
  | NN | constant
deriving DecidableEq, Repr

/-- The `covar_module` string: line 158 asserts membership in
`['NN', 'SE']`. -/
inductive SVGDCovarArg where
  | NN | SE
deriving DecidableEq, Repr

/-- Tiling `x_data.view(torch.Size((1,)) + x_data.shape).repeat(P, 1, 1)`
(lines 192, 199, 201): a `(n, d)` tensor becomes a `(P, n, d)` tensor
holding `P` copies of the data. -/
def svgdTile3 (P : ℕ) (x : List (List ℚ)) : List (List (List ℚ)) :=
  List.replicate P x

/-- Tiling `y_data.view(torch.Size((1,)) + y_data.shape).repeat(P, 1)`
(lines 193, 200): a `(n,)` tensor becomes a `(P, n)` tensor holding `P`
copies of the data. -/
def svgdTile2 (P : ℕ) (y : List ℚ) : List (List ℚ) :=
  List.replicate P y

/-- Modelled from the spec: `src.random_gp.RandomGP.sample_params_from_prior`
is not under src/.  §4.4: it "draws `shape` (e.g. (num_particles,))
independent weight-vector samples, returned as one batched tensor".
`draw i` stands for the `i`-th sampled weight vector; the leading
dimension of the result is the requested particle count. -/
def sampleParamsFromPrior {W : Type} (draw : ℕ → W) (P : ℕ) : List W :=
  (List.range P).map draw

/-- Modelled from the spec: `src.svgd.SVGD.step` is not under src/.
§4.5: one `step(particles, x, y)` call computes an update direction for
every particle (from all particles, the data and the Stein kernel) and
delegates the numeric update to the external optimizer, which performs
in-place parameter updates (§1).  `dir ps x y i p` is the optimizer's
updated value of particle `i`; the particle tensor is rewritten
element-wise in place, so no particle is created or removed. -/
def svgdStepParticles {W : Type}
    (dir : List W → List (List (List ℚ)) → List (List ℚ) → ℕ → W → W)
    (ps : List W) (x : List (List (List ℚ))) (y : List (List ℚ)) : List W :=
  ps.mapIdx fun i p => dir ps x y i p

/-- Modelled from the spec: `RegressionModel._initial_data_handling`
(src/abstract.py is not under src/).  §4.6 and §6: it normalizes the
input/target data (tracking the target mean/std for later
de-normalization) and reshapes it to `train_x` of shape `(n, d)` and
targets of shape `(n, 1)`.  This structure records its outputs. -/
structure DataHandlingResult where
  train_x : List (List ℚ)
  /-- normalized targets, shape `(n, 1)` -/
  train_t2 : List (List ℚ)
  y_mean : ℚ
  y_std : ℚ
deriving DecidableEq, Repr

/-- The state of a constructed `GPRegressionLearnedSVGD`, over an
abstract type `W` of particle weight vectors. -/
structure SVGDModel (W : Type) where
  num_particles : ℕ
  num_iter_fit : ℕ
  train_x : List (List ℚ)
  /-- Tensor `self.train_t` after the `flatten()` of line 53, shape `(n,)` -/
  train_t : List ℚ
  particles : List W
  y_mean : ℚ
  y_std : ℚ
  fitted : Bool
deriving Repr

/-- Constructor `GPRegressionLearnedSVGD.__init__` (lines 14-59) together with
`_setup_model_inference` (lines 155-209): the string arguments are
asserted (always satisfied by the representable argument types), the
handled targets must have `shape[-1] == 1` (line 52) and are flattened
(line 53), and the particle ensemble is created once by drawing
`num_particles` samples from the prior (line 176).  `fitted` starts out
`False`. -/
def svgdInit {W : Type} (draw : ℕ → W) (dh : DataHandlingResult)
    (_mm : SVGDMeanArg) (_cm : SVGDCovarArg) (_kern : SteinKernelArg)
    (_opt : OptimizerArg) (num_particles num_iter_fit : ℕ) :
    Option (SVGDModel W) :=
  if dh.train_t2.all fun r => r.length = 1 then
    some { num_particles := num_particles
           num_iter_fit := num_iter_fit
           train_x := dh.train_x
           train_t := dh.train_t2.flatten
           particles := sampleParamsFromPrior draw num_particles
           y_mean := dh.y_mean
           y_std := dh.y_std
           fitted := false }
  else none

/-- The `svgd_step` closure (lines 190-194): tile the data to the
particle batch dimension and call `self.svgd.step(self.particles, ...)`.
Returns the updated particles and the `(x_data, y_data)` pair passed to
`SVGD.step`. -/
def svgdStepClosure {W : Type}
    (dir : List W → List (List (List ℚ)) → List (List ℚ) → ℕ → W → W)
    (P : ℕ) (ps : List W) (x : List (List ℚ)) (y : List ℚ) :
    List W × (List (List (List ℚ)) × List (List ℚ)) :=
  let xT := svgdTile3 P x
  let yT := svgdTile2 P y
  (svgdStepParticles dir ps xT yT, (xT, yT))

/-- The loop of `fit` (lines 77-93) run for `k` remaining iterations:
each iteration calls `self.svgd_step(self.train_x, self.train_t)`.
Returns the final particles and the trace of data batches passed to
`SVGD.step`. -/
def svgdFitLoop {W : Type}
    (dir : List W → List (List (List ℚ)) → List (List ℚ) → ℕ → W → W)
    (P : ℕ) (x : List (List ℚ)) (y : List ℚ) :
    ℕ → List W → List W × List (List (List (List ℚ)) × List (List ℚ))
  | 0, ps => (ps, [])
  | k + 1, ps =>
    let s := svgdStepClosure dir P ps x y
    let r := svgdFitLoop dir P x y k s.1
    (r.1, s.2 :: r.2)

/-- Method `GPRegressionLearnedSVGD.fit` (lines 62-95): run `num_iter_fit` SVGD
steps on the (fixed) training data, then set `fitted = True`.  Returns
the updated model state and the trace of data batches passed to
`SVGD.step`. -/
def svgdFit {W : Type}
    (dir : List W → List (List (List ℚ)) → List (List ℚ) → ℕ → W → W)
    (m : SVGDModel W) :
    SVGDModel W × List (List (List (List ℚ)) × List (List ℚ)) :=
  let r := svgdFitLoop dir m.num_particles m.train_x m.train_t m.num_iter_fit m.particles
  ({ m with particles := r.1, fitted := true }, r.2)

/-- The model state after `j` successive `fit` calls. -/
def svgdFitIter {W : Type}
    (dir : List W → List (List (List ℚ)) → List (List ℚ) → ℕ → W → W)
    (j : ℕ) (m : SVGDModel W) : SVGDModel W :=
  (fun s => (svgdFit dir s).1)^[j] m

/-! Embedding of `GPRegressionLearnedSVGD.predict` (lines 98-128) -/

/-- Symbolic predictive-distribution objects built at the prediction
boundary.  `gpBatch` is the batched per-particle predictive distribution
`likelihood(gp(x_valid))` produced by `get_pred_dist` (lines 197-206)
from the particles and the tiled context/query data;
`affineTransformed` is `AffineTransformedDistribution` and
`equalWeightedMixture` is `EqualWeightedMixtureDist`
(both imported from src/models.py, which is not under src/; the spec's
§2 "Distribution Combinators" describes them as an affine de-normalization
wrapper and an equal-weight mixture over the particle batch dimension). -/
inductive PredDist (W : Type) where
  | gpBatch (particles : List W) (xContext : List (List (List ℚ)))
      (yContext : List (List ℚ)) (xValid : List (List (List ℚ)))
  | affineTransformed (d : PredDist W) (normalization_mean normalization_std : ℚ)
  | equalWeightedMixture (d : PredDist W) (batched : Bool)
deriving DecidableEq, Repr

/-- The `get_pred_dist` closure (lines 197-206): tile the context data
and the query data to the particle batch dimension, build the forward
function from the current particles, and return the batched predictive
distribution. -/
def getPredDist {W : Type} (m : SVGDModel W)
    (xContext : List (List ℚ)) (yContext : List ℚ) (xValid : List (List ℚ)) :
    PredDist W :=
  PredDist.gpBatch m.particles
    (svgdTile3 m.num_particles xContext)
    (svgdTile2 m.num_particles yContext)
    (svgdTile3 m.num_particles xValid)

/-- Method `GPRegressionLearnedSVGD.predict` (lines 98-128): reshape a 1-D query
to a column, normalize it (`self._normalize_data`, an external
collaborator abstracted as `normalizeX`), build the batched per-particle
predictive distribution over the tiled query, wrap it in the affine
de-normalization transform with the stored target mean/std, wrap that in
an equal-weight mixture with `batched=True`, and return the mixture
object when `return_density` holds, otherwise the materialized
`(mean, std)` pair (`distMean`/`distStd` abstract the external
`.mean`/`.stddev` computations). -/
def svgdPredict {W : Type} (distMean distStd : PredDist W → List ℚ)
    (normalizeX : List (List ℚ) → List (List ℚ))
    (m : SVGDModel W) (test_x : NPArray) (return_density : Bool) :
    PredDist W ⊕ (List ℚ × List ℚ) :=
  let tx := if test_x.ndim = 1 then test_x.expandDimsLast else test_x
  let txNorm := normalizeX tx.toMatrix
  let d0 := getPredDist m m.train_x m.train_t txNorm
  let d1 := PredDist.affineTransformed d0 m.y_mean m.y_std
  let d2 := PredDist.equalWeightedMixture d1 true
  if return_density then Sum.inl d2 else Sum.inr (distMean d2, distStd d2)

/-! Helper lemmas shared by the claim theorems -/

theorem foldl_sub_eq_sub_sum {α : Type} (f : α → ℚ) :
    ∀ (l : List α) (a : ℚ), l.foldl (fun acc p => acc - f p) a = a - (l.map f).sum
  | [], a => by simp
  | x :: xs, a => by
    rw [List.foldl_cons, foldl_sub_eq_sub_sum f xs (a - f x), List.map_cons,
      List.sum_cons]
    ring

theorem metaIterLoss_eq_neg_sum (mllOf : ℕ → ℚ) (ns : List ℕ) :
    metaIterLoss mllOf ns =
      -((ns.enum.map fun p => mllOf p.1 / (p.2 : ℚ)).sum) := by
  have h := foldl_sub_eq_sub_sum (fun p : ℕ × ℕ => mllOf p.1 / (p.2 : ℚ)) ns.enum 0
  unfold metaIterLoss
  simpa using h

theorem metaFitLoop_trace {Θ : Type} (opt : ℕ → Θ → Θ) (mll : ℕ → ℕ → ℚ)
    (ns : List ℕ) :
    ∀ (k itr : ℕ) (θ : Θ),
      (metaFitLoop opt mll ns k itr θ).2 =
        ((List.range' itr k).map fun i =>
          [MetaEvent.zeroGrad, MetaEvent.backward (metaIterLoss (mll i) ns),
           MetaEvent.optStep]).flatten
  | 0, itr, θ => by simp [metaFitLoop]
  | k + 1, itr, θ => by
    rw [List.range'_succ]
    simp only [metaFitLoop, List.map_cons, List.flatten_cons,
      metaFitLoop_trace opt mll ns k (itr + 1)]
    rfl

theorem metaFitLoop_optStep_mem {Θ : Type} (opt : ℕ → Θ → Θ)
    (mll : ℕ → ℕ → ℚ) (ns : List ℕ) (k itr : ℕ) (θ : Θ) (hk : 0 < k) :
    MetaEvent.optStep ∈ (metaFitLoop opt mll ns k itr θ).2 := by
  cases k with
  | zero => exact absurd hk (by omega)
  | succ k => simp [metaFitLoop]

/-- C1: with a non-empty shared parameter set, each of the `num_iter_fit`
iterations of `meta_fit` zeroes the optimizer gradients, backpropagates
the loss — which equals the negative sum over tasks of that task's exact
marginal log-likelihood divided by that task's number of training
samples — and applies exactly one optimizer step: the torch event trace
consists of exactly `num_iter_fit` blocks
`[zeroGrad, backward loss_itr, optStep]` for iterations 1 through
`num_iter_fit`. -/
theorem metaFit_iteration_structure {Θ : Type} (opt : ℕ → Θ → Θ)
    (mll : ℕ → ℕ → ℚ) (m : MetaModel Θ)
    (h : m.sharedParameters ≠ []) :
    ∃ r, metaFit opt mll none m = Except.ok r ∧
      r.trace =
        ((List.range' 1 m.num_iter_fit).map fun itr =>
          [MetaEvent.zeroGrad,
           MetaEvent.backward
             (-(((m.tasks.map fun t => t.1.rows).enum.map
                 fun p => mll itr p.1 / (p.2 : ℚ)).sum)),
           MetaEvent.optStep]).flatten := by
  have hl : 0 < m.sharedParameters.length := List.length_pos.mpr h
  refine ⟨_, rfl, ?_⟩
  show (if m.sharedParameters.length > 0 then
          metaFitLoop opt mll (m.tasks.map fun t => t.1.rows) m.num_iter_fit 1 m.θ
        else (m.θ, [])).2 = _
  rw [if_pos hl, metaFitLoop_trace]
  simp only [metaIterLoss_eq_neg_sum]

/-- Witness for C1 at a concrete two-task model. -/
theorem metaFit_iteration_structure_witness :
    ∃ r, metaFit (Θ := Unit) (fun _ θ => θ) (fun itr i => (itr : ℚ) + i) none
        { input_dim := 1, num_iter_fit := 2,
          sharedParameters := [ParamGroup.kernelNN],
          tasks := [(NPArray.two [[1], [2]], NPArray.two [[3], [4]]),
                    (NPArray.two [[5]], NPArray.two [[6]])],
          θ := (), fitted := false } = Except.ok r ∧
      r.trace =
        ((List.range' 1 (2 : ℕ)).map fun itr =>
          [MetaEvent.zeroGrad,
           MetaEvent.backward
             (-((([(NPArray.two [[1], [2]], NPArray.two [[3], [4]]),
                   (NPArray.two [[5]], NPArray.two [[6]])].map
                     fun t => t.1.rows).enum.map
                 fun p => ((itr : ℚ) + p.1) / (p.2 : ℚ)).sum)),
           MetaEvent.optStep]).flatten :=
  metaFit_iteration_structure (fun _ θ => θ) (fun itr i => (itr : ℚ) + i)
    { input_dim := 1, num_iter_fit := 2,
      sharedParameters := [ParamGroup.kernelNN],
      tasks := [(NPArray.two [[1], [2]], NPArray.two [[3], [4]]),
                (NPArray.two [[5]], NPArray.two [[6]])],
      θ := (), fitted := false }
    (by decide)

theorem gprMetaInit_ok_spec {Θ : Type} {θ0 : Θ} {data : List (NPArray × NPArray)}
    {lm : LearningMode} {mm : MeanModuleArg} {cm : CovarModuleArg} {n : ℕ}
    {m : MetaModel Θ}
    (h : gprMetaInit θ0 data lm mm cm n = Except.ok m) :
    m.sharedParameters = sharedParametersOf mm cm ∧
    setupGPPriorOk lm mm cm = true ∧
    m.θ = θ0 ∧ m.num_iter_fit = n ∧ m.fitted = false ∧
    m.tasks = gprMetaInitDataEffect data ∧
    (handleLoop data).2 = true := by
  unfold gprMetaInit at h
  simp only [] at h
  split at h
  next hr2 =>
    split at h
    next => exact absurd h (by simp)
    next t0 rest hmatch =>
      split at h
      next =>
        split at h
        next hrole =>
          obtain rfl := (Except.ok.injEq ..).mp h
          exact ⟨rfl, hrole, rfl, rfl, rfl, by
            simp only [gprMetaInitDataEffect, hmatch], hr2⟩
        next => exact absurd h (by simp)
      next => exact absurd h (by simp)
  next => exact absurd h (by simp)

theorem setupGPPriorOk_vanilla_shared_empty :
    ∀ (mm : MeanModuleArg) (cm : CovarModuleArg),
      setupGPPriorOk LearningMode.vanilla mm cm = true →
      sharedParametersOf mm cm = [] := by
  intro mm cm
  cases mm <;> cases cm <;> decide

/-- C6: for an instance constructed with `learning_mode='vanilla'`,
`meta_fit` has an empty shared-parameter list, leaves the shared
parameters unchanged, performs no optimizer event at all, and still sets
`fitted` to true on return. -/
theorem metaFit_vanilla_noop {Θ : Type} (opt : ℕ → Θ → Θ) (mll : ℕ → ℕ → ℚ)
    (θ0 : Θ) (data : List (NPArray × NPArray)) (mm : MeanModuleArg)
    (cm : CovarModuleArg) (n : ℕ) (m : MetaModel Θ)
    (h : gprMetaInit θ0 data LearningMode.vanilla mm cm n = Except.ok m) :
    m.sharedParameters = [] ∧
    ∃ r, metaFit opt mll none m = Except.ok r ∧
      r.θ = m.θ ∧ r.fitted = true ∧ r.trace = [] := by
  obtain ⟨hs, hok, -⟩ := gprMetaInit_ok_spec h
  have he : m.sharedParameters = [] :=
    hs.trans (setupGPPriorOk_vanilla_shared_empty mm cm hok)
  refine ⟨he, _, rfl, ?_, rfl, ?_⟩
  · show (if m.sharedParameters.length > 0 then
            metaFitLoop opt mll (m.tasks.map fun t => t.1.rows) m.num_iter_fit 1 m.θ
          else (m.θ, [])).1 = m.θ
    rw [if_neg (by simp [he])]
  · show (if m.sharedParameters.length > 0 then
            metaFitLoop opt mll (m.tasks.map fun t => t.1.rows) m.num_iter_fit 1 m.θ
          else (m.θ, [])).2 = []
    rw [if_neg (by simp [he])]

/-- Witness for C6 at a concrete vanilla-mode construction. -/
theorem metaFit_vanilla_noop_witness :
    ({ input_dim := 1, num_iter_fit := 3, sharedParameters := [],
       tasks := [(NPArray.two [[1]], NPArray.two [[2]])],
       θ := (), fitted := false } : MetaModel Unit).sharedParameters = [] ∧
    ∃ r, metaFit (Θ := Unit) (fun _ θ => θ) (fun _ _ => 1) none
        { input_dim := 1, num_iter_fit := 3, sharedParameters := [],
          tasks := [(NPArray.two [[1]], NPArray.two [[2]])],
          θ := (), fitted := false } = Except.ok r ∧
      r.θ = () ∧ r.fitted = true ∧ r.trace = [] :=
  metaFit_vanilla_noop (fun _ θ => θ) (fun _ _ => 1)
    () [(NPArray.one [1], NPArray.one [2])]
    MeanModuleArg.zero CovarModuleArg.SE 3
    { input_dim := 1, num_iter_fit := 3, sharedParameters := [],
      tasks := [(NPArray.two [[1]], NPArray.two [[2]])],
      θ := (), fitted := false }
    (by rfl)

/-- C7: every normally returning run of `meta_fit` ends with `fitted`
true, every per-task GP model in evaluation mode and the likelihood in
evaluation mode. -/
theorem metaFit_terminal_state {Θ : Type} (opt : ℕ → Θ → Θ)
    (mll : ℕ → ℕ → ℚ) (va : Option (List ℕ)) (m : MetaModel Θ)
    (h : validTuplesOk va = true) :
    ∃ r, metaFit opt mll va m = Except.ok r ∧
      r.fitted = true ∧ (∀ b ∈ r.modelTraining, b = false) ∧
      r.likTraining = false := by
  unfold metaFit
  rw [h]
  exact ⟨_, rfl, rfl, by simp, rfl⟩

/-- Witness for C7 with explicit validation tuples of arity 4. -/
theorem metaFit_terminal_state_witness :
    ∃ r, metaFit (Θ := Unit) (fun _ θ => θ) (fun _ _ => 1) (some [4, 4])
        { input_dim := 1, num_iter_fit := 2,
          sharedParameters := [ParamGroup.meanNN],
          tasks := [(NPArray.two [[1]], NPArray.two [[2]])],
          θ := (), fitted := false } = Except.ok r ∧
      r.fitted = true ∧ (∀ b ∈ r.modelTraining, b = false) ∧
      r.likTraining = false :=
  metaFit_terminal_state (fun _ θ => θ) (fun _ _ => 1) (some [4, 4])
    { input_dim := 1, num_iter_fit := 2,
      sharedParameters := [ParamGroup.meanNN],
      tasks := [(NPArray.two [[1]], NPArray.two [[2]])],
      θ := (), fitted := false }
    (by decide)

/-- C2 counterexample: `learning_mode='learn_mean'` together with
`mean_module='zero'` (and `covar_module='SE'`) does NOT fail: the
constructor returns a fully built model, because the assertions of
`_setup_gp_prior` only fire when a module string is `'NN'`. -/
theorem gprMetaInit_learnMean_zero_succeeds :
    gprMetaInit (Θ := Unit) () [(NPArray.one [0], NPArray.one [0])]
      LearningMode.learn_mean MeanModuleArg.zero CovarModuleArg.SE 5 =
    Except.ok { input_dim := 1, num_iter_fit := 5, sharedParameters := [],
                tasks := [(NPArray.two [[0]], NPArray.two [[0]])],
                θ := (), fitted := false } := by rfl

theorem setupGPPriorOk_false_iff :
    ∀ (lm : LearningMode) (mm : MeanModuleArg) (cm : CovarModuleArg),
      (setupGPPriorOk lm mm cm = false ↔
        (cm = CovarModuleArg.NN ∧ lm ≠ LearningMode.learn_kernel ∧
          lm ≠ LearningMode.both) ∨
        (mm = MeanModuleArg.NN ∧ lm ≠ LearningMode.learn_mean ∧
          lm ≠ LearningMode.both)) := by
  intro lm mm cm
  cases lm <;> cases mm <;> cases cm <;> decide

/-- C2 amended: on well-formed data, the constructor fails with an
assertion error exactly when a module configuration string is `'NN'`
while `learning_mode` does not request learning that role
(`covar_module='NN'` without `learn_kernel`/`both`, or `mean_module='NN'`
without `learn_mean`/`both`); requesting a learned role whose module
string does not enable a network (e.g. `learn_mean` with
`mean_module='zero'`) is accepted. -/
theorem gprMetaInit_roleAssert_iff {Θ : Type} (θ0 : Θ)
    (data : List (NPArray × NPArray)) (lm : LearningMode)
    (mm : MeanModuleArg) (cm : CovarModuleArg) (n : ℕ)
    (hdata : metaDataOk data = true) :
    gprMetaInit θ0 data lm mm cm n = Except.error InitError.roleAssert ↔
      (cm = CovarModuleArg.NN ∧ lm ≠ LearningMode.learn_kernel ∧
        lm ≠ LearningMode.both) ∨
      (mm = MeanModuleArg.NN ∧ lm ≠ LearningMode.learn_mean ∧
        lm ≠ LearningMode.both) := by
  rw [← setupGPPriorOk_false_iff lm mm cm]
  unfold metaDataOk at hdata
  simp only [Bool.and_eq_true] at hdata
  obtain ⟨hr2, hrest⟩ := hdata
  unfold gprMetaInit
  simp only []
  rw [hr2]
  simp only [if_true]
  revert hrest
  cases hm : (handleLoop data).1 with
  | nil => intro hrest; exact absurd hrest (by simp)
  | cons t0 rest =>
    intro hrest
    simp only [] at hrest ⊢
    rw [hrest]
    simp only [if_true]
    constructor
    · intro hok
      by_contra hne
      rw [Bool.not_eq_false] at hne
      rw [hne] at hok
      simp at hok
    · intro hfalse
      rw [hfalse]
      rfl

/-- Witness for the amended C2: with `learning_mode='vanilla'` and
`covar_module='NN'` the constructor fails with the role assertion. -/
theorem gprMetaInit_roleAssert_iff_witness :
    gprMetaInit (Θ := Unit) () [(NPArray.one [0], NPArray.one [0])]
      LearningMode.vanilla MeanModuleArg.zero CovarModuleArg.NN 5 =
      Except.error InitError.roleAssert ↔
      (CovarModuleArg.NN = CovarModuleArg.NN ∧
        LearningMode.vanilla ≠ LearningMode.learn_kernel ∧
        LearningMode.vanilla ≠ LearningMode.both) ∨
      (MeanModuleArg.zero = MeanModuleArg.NN ∧
        LearningMode.vanilla ≠ LearningMode.learn_mean ∧
        LearningMode.vanilla ≠ LearningMode.both) :=
  gprMetaInit_roleAssert_iff () [(NPArray.one [0], NPArray.one [0])]
    LearningMode.vanilla MeanModuleArg.zero CovarModuleArg.NN 5 (by decide)

/-- C8: when the query's feature dimension (after reshaping a 1-D query
to a column) differs from the handled context inputs' feature dimension,
`predict` fails with the shape assertion, for every GP-computation
oracle — i.e. before any GP computation is performed. -/
theorem gprMetaPredict_shape_guard {Θ : Type}
    (gp : Θ → List (List ℚ) → List ℚ → List (List ℚ) → List ℚ × List ℚ)
    (m : MetaModel Θ) (ctx_x ctx_t test_x : NPArray) (cx ct : NPArray)
    (hctx : handleInputDimensionality ctx_x ctx_t = some (cx, ct))
    (hdim : (if test_x.ndim = 1 then test_x.expandDimsLast else test_x).cols ≠
      cx.cols) :
    gprMetaPredict gp m ctx_x ctx_t test_x =
      Except.error PredictError.shapeMismatch := by
  unfold gprMetaPredict
  rw [hctx]
  simp only [if_neg hdim]

/-- Witness for C8: a two-column context with a 1-D (hence one-column)
query fails the shape assertion. -/
theorem gprMetaPredict_shape_guard_witness :
    gprMetaPredict (fun _ _ _ _ => ([], []))
      ({ input_dim := 2, num_iter_fit := 1, sharedParameters := [],
         tasks := [], θ := (), fitted := false } : MetaModel Unit)
      (NPArray.two [[1, 2]]) (NPArray.one [3]) (NPArray.one [5]) =
      Except.error PredictError.shapeMismatch :=
  gprMetaPredict_shape_guard (fun _ _ _ _ => ([], []))
    { input_dim := 2, num_iter_fit := 1, sharedParameters := [],
      tasks := [], θ := (), fitted := false }
    (NPArray.two [[1, 2]]) (NPArray.one [3]) (NPArray.one [5])
    (NPArray.two [[1, 2]]) (NPArray.two [[3]]) (by rfl) (by decide)

theorem sharedParametersOf_ne_nil_iff :
    ∀ (mm : MeanModuleArg) (cm : CovarModuleArg),
      (sharedParametersOf mm cm ≠ [] ↔
        (cm = CovarModuleArg.NN ∨ mm = MeanModuleArg.NN)) := by
  intro mm cm
  cases mm <;> cases cm <;> decide

/-- C9: `meta_fit` performs gradient updates exactly when the
shared-parameter list built at construction is non-empty, which happens
exactly when `covar_module='NN'` or `mean_module='NN'` was supplied; with
neither module string equal to `'NN'`, `meta_fit` performs no
optimization at all (no optimizer event, parameters untouched) and still
sets `fitted` to true. -/
theorem metaFit_updates_iff_nn {Θ : Type} (opt : ℕ → Θ → Θ)
    (mll : ℕ → ℕ → ℚ) (θ0 : Θ) (data : List (NPArray × NPArray))
    (lm : LearningMode) (mm : MeanModuleArg) (cm : CovarModuleArg) (n : ℕ)
    (m : MetaModel Θ)
    (h : gprMetaInit θ0 data lm mm cm n = Except.ok m) (hn : 0 < n) :
    (m.sharedParameters ≠ [] ↔
      (cm = CovarModuleArg.NN ∨ mm = MeanModuleArg.NN)) ∧
    ∃ r, metaFit opt mll none m = Except.ok r ∧
      (MetaEvent.optStep ∈ r.trace ↔ m.sharedParameters ≠ []) ∧
      (cm ≠ CovarModuleArg.NN → mm ≠ MeanModuleArg.NN →
        r.θ = m.θ ∧ r.trace = [] ∧ r.fitted = true) := by
  obtain ⟨hs, -, -, hnum, -, -⟩ := gprMetaInit_ok_spec h
  have hiff : m.sharedParameters ≠ [] ↔
      (cm = CovarModuleArg.NN ∨ mm = MeanModuleArg.NN) := by
    rw [hs]; exact sharedParametersOf_ne_nil_iff mm cm
  refine ⟨hiff, _, rfl, ?_, ?_⟩
  · show MetaEvent.optStep ∈ (if m.sharedParameters.length > 0 then
        metaFitLoop opt mll (m.tasks.map fun t => t.1.rows) m.num_iter_fit 1 m.θ
      else (m.θ, [])).2 ↔ m.sharedParameters ≠ []
    by_cases hc : m.sharedParameters = []
    · rw [if_neg (by simp [hc])]
      simp [hc]
    · rw [if_pos (List.length_pos.mpr hc)]
      simp only [hc, ne_eq, not_false_eq_true, iff_true]
      exact metaFitLoop_optStep_mem opt mll _ _ _ _ (by rw [hnum]; exact hn)
  · intro hcm hmm
    have hempty : m.sharedParameters = [] := by
      rw [hs]
      unfold sharedParametersOf
      rw [if_neg hcm, if_neg hmm]
      rfl
    refine ⟨?_, ?_, rfl⟩
    · show (if m.sharedParameters.length > 0 then
          metaFitLoop opt mll (m.tasks.map fun t => t.1.rows) m.num_iter_fit 1 m.θ
        else (m.θ, [])).1 = m.θ
      rw [if_neg (by simp [hempty])]
    · show (if m.sharedParameters.length > 0 then
          metaFitLoop opt mll (m.tasks.map fun t => t.1.rows) m.num_iter_fit 1 m.θ
        else (m.θ, [])).2 = []
      rw [if_neg (by simp [hempty])]

/-- Witness for C9 at a concrete construction with both module strings
`'NN'` and `learning_mode='both'`. -/
theorem metaFit_updates_iff_nn_witness :
    (({ input_dim := 1, num_iter_fit := 2,
        sharedParameters := [ParamGroup.kernelNN, ParamGroup.meanNN],
        tasks := [(NPArray.two [[1]], NPArray.two [[2]])], θ := (),
        fitted := false } : MetaModel Unit).sharedParameters ≠ [] ↔
      (CovarModuleArg.NN = CovarModuleArg.NN ∨
        MeanModuleArg.NN = MeanModuleArg.NN)) ∧
    ∃ r, metaFit (Θ := Unit) (fun _ θ => θ) (fun _ _ => 1) none
        { input_dim := 1, num_iter_fit := 2,
          sharedParameters := [ParamGroup.kernelNN, ParamGroup.meanNN],
          tasks := [(NPArray.two [[1]], NPArray.two [[2]])], θ := (),
          fitted := false } = Except.ok r ∧
      (MetaEvent.optStep ∈ r.trace ↔
        ({ input_dim := 1, num_iter_fit := 2,
           sharedParameters := [ParamGroup.kernelNN, ParamGroup.meanNN],
           tasks := [(NPArray.two [[1]], NPArray.two [[2]])], θ := (),
           fitted := false } : MetaModel Unit).sharedParameters ≠ []) ∧
      (CovarModuleArg.NN ≠ CovarModuleArg.NN →
        MeanModuleArg.NN ≠ MeanModuleArg.NN →
        r.θ = () ∧ r.trace = [] ∧ r.fitted = true) :=
  metaFit_updates_iff_nn (fun _ θ => θ) (fun _ _ => 1)
    () [(NPArray.one [1], NPArray.one [2])]
    LearningMode.both MeanModuleArg.NN CovarModuleArg.NN 2
    { input_dim := 1, num_iter_fit := 2,
      sharedParameters := [ParamGroup.kernelNN, ParamGroup.meanNN],
      tasks := [(NPArray.two [[1]], NPArray.two [[2]])], θ := (),
      fitted := false }
    (by rfl) (by decide)

theorem handleLoop_forall₂ :
    ∀ (data : List (NPArray × NPArray)), (handleLoop data).2 = true →
      List.Forall₂ (fun p q => handleInputDimensionality p.1 p.2 = some q)
        data (handleLoop data).1
  | [], _ => List.Forall₂.nil
  | p :: rest, h => by
    unfold handleLoop at h ⊢
    cases hp : handleInputDimensionality p.1 p.2 with
    | none =>
      rw [hp] at h
      simp at h
    | some p' =>
      rw [hp] at h
      simp only [] at h ⊢
      exact List.Forall₂.cons hp (handleLoop_forall₂ rest h)

/-- C10: a (successful) constructor call rewrites the caller-supplied
`meta_train_data` list in place: every element is replaced by the
reshaped pair produced by the input-dimensionality handler, and the
constructed model stores exactly the rewritten list, so construction has
a visible side effect on its argument. -/
theorem gprMetaInit_mutates_caller_data {Θ : Type} (θ0 : Θ)
    (data : List (NPArray × NPArray)) (lm : LearningMode)
    (mm : MeanModuleArg) (cm : CovarModuleArg) (n : ℕ) (m : MetaModel Θ)
    (h : gprMetaInit θ0 data lm mm cm n = Except.ok m) :
    List.Forall₂ (fun p q => handleInputDimensionality p.1 p.2 = some q)
      data (gprMetaInitDataEffect data) ∧
    m.tasks = gprMetaInitDataEffect data := by
  obtain ⟨-, -, -, -, -, htasks, hr2⟩ := gprMetaInit_ok_spec h
  exact ⟨handleLoop_forall₂ data hr2, htasks⟩

/-- Witness for C10: a 1-D task is visibly rewritten to its 2-D column
form in the caller's list. -/
theorem gprMetaInit_mutates_caller_data_witness :
    (List.Forall₂ (fun p q => handleInputDimensionality p.1 p.2 = some q)
      [(NPArray.one [1], NPArray.one [2])]
      (gprMetaInitDataEffect [(NPArray.one [1], NPArray.one [2])]) ∧
     ({ input_dim := 1, num_iter_fit := 7, sharedParameters := [],
        tasks := [(NPArray.two [[1]], NPArray.two [[2]])], θ := (),
        fitted := false } : MetaModel Unit).tasks =
       gprMetaInitDataEffect [(NPArray.one [1], NPArray.one [2])]) ∧
    gprMetaInitDataEffect [(NPArray.one [1], NPArray.one [2])] ≠
      [(NPArray.one [1], NPArray.one [2])] :=
  ⟨gprMetaInit_mutates_caller_data () [(NPArray.one [1], NPArray.one [2])]
      LearningMode.learn_mean MeanModuleArg.zero CovarModuleArg.SE 7
      { input_dim := 1, num_iter_fit := 7, sharedParameters := [],
        tasks := [(NPArray.two [[1]], NPArray.two [[2]])], θ := (),
        fitted := false } (by rfl),
   by decide⟩

theorem svgdFitLoop_trace {W : Type}
    (dir : List W → List (List (List ℚ)) → List (List ℚ) → ℕ → W → W)
    (P : ℕ) (x : List (List ℚ)) (y : List ℚ) :
    ∀ (k : ℕ) (ps : List W),
      (svgdFitLoop dir P x y k ps).2 =
        List.replicate k (svgdTile3 P x, svgdTile2 P y)
  | 0, ps => rfl
  | k + 1, ps => by
    simp only [svgdFitLoop, svgdStepClosure, List.replicate_succ,
      svgdFitLoop_trace dir P x y k]

theorem svgdStepParticles_length {W : Type}
    (dir : List W → List (List (List ℚ)) → List (List ℚ) → ℕ → W → W)
    (ps : List W) (x : List (List (List ℚ))) (y : List (List ℚ)) :
    (svgdStepParticles dir ps x y).length = ps.length :=
  List.length_mapIdx ..

theorem svgdFitLoop_particles_length {W : Type}
    (dir : List W → List (List (List ℚ)) → List (List ℚ) → ℕ → W → W)
    (P : ℕ) (x : List (List ℚ)) (y : List ℚ) :
    ∀ (k : ℕ) (ps : List W),
      (svgdFitLoop dir P x y k ps).1.length = ps.length
  | 0, ps => rfl
  | k + 1, ps => by
    simp only [svgdFitLoop, svgdStepClosure]
    rw [svgdFitLoop_particles_length dir P x y k, svgdStepParticles_length]

theorem svgdFit_particles_length {W : Type}
    (dir : List W → List (List (List ℚ)) → List (List ℚ) → ℕ → W → W)
    (m : SVGDModel W) :
    (svgdFit dir m).1.particles.length = m.particles.length :=
  svgdFitLoop_particles_length dir m.num_particles m.train_x m.train_t
    m.num_iter_fit m.particles

/-- C3: `fit` executes exactly `num_iter_fit` SVGD steps; each step
passes to `SVGD.step` the task's inputs and targets tiled along a new
leading particle dimension — shapes `(P, n, d)` and `(P, n)` for inputs
of shape `(n, d)` and targets of shape `(n,)` — so each of the `P`
particle slices is the very same data; on return `fitted` is true. -/
theorem svgdFit_step_structure {W : Type}
    (dir : List W → List (List (List ℚ)) → List (List ℚ) → ℕ → W → W)
    (m : SVGDModel W) (n d : ℕ)
    (hxlen : m.train_x.length = n)
    (hxrow : ∀ row ∈ m.train_x, row.length = d)
    (htlen : m.train_t.length = n) :
    (svgdFit dir m).2 =
      List.replicate m.num_iter_fit
        (svgdTile3 m.num_particles m.train_x,
         svgdTile2 m.num_particles m.train_t) ∧
    (svgdFit dir m).2.length = m.num_iter_fit ∧
    (svgdTile3 m.num_particles m.train_x).length = m.num_particles ∧
    (∀ b ∈ svgdTile3 m.num_particles m.train_x,
      b = m.train_x ∧ b.length = n ∧ ∀ row ∈ b, row.length = d) ∧
    (svgdTile2 m.num_particles m.train_t).length = m.num_particles ∧
    (∀ b ∈ svgdTile2 m.num_particles m.train_t,
      b = m.train_t ∧ b.length = n) ∧
    (svgdFit dir m).1.fitted = true := by
  refine ⟨?_, ?_, ?_, ?_, ?_, ?_, rfl⟩
  · show (svgdFitLoop dir m.num_particles m.train_x m.train_t
      m.num_iter_fit m.particles).2 = _
    exact svgdFitLoop_trace dir m.num_particles m.train_x m.train_t
      m.num_iter_fit m.particles
  · show (svgdFitLoop dir m.num_particles m.train_x m.train_t
      m.num_iter_fit m.particles).2.length = _
    rw [svgdFitLoop_trace dir m.num_particles m.train_x m.train_t
      m.num_iter_fit m.particles]
    exact List.length_replicate ..
  · exact List.length_replicate ..
  · intro b hb
    have hbx : b = m.train_x := List.eq_of_mem_replicate hb
    exact ⟨hbx, hbx ▸ hxlen, hbx ▸ hxrow⟩
  · exact List.length_replicate ..
  · intro b hb
    have hbt : b = m.train_t := List.eq_of_mem_replicate hb
    exact ⟨hbt, hbt ▸ htlen⟩

/-- Witness for C3 at a concrete one-dimensional two-sample task. -/
theorem svgdFit_step_structure_witness :
    ((svgdFit (W := Unit) (fun _ _ _ _ p => p)
        { num_particles := 3, num_iter_fit := 2,
          train_x := [[1], [2]], train_t := [5, 6],
          particles := [(), (), ()], y_mean := 0, y_std := 1,
          fitted := false }).2 =
      List.replicate 2 (svgdTile3 3 [[1], [2]], svgdTile2 3 [5, 6]) ∧
     (svgdFit (W := Unit) (fun _ _ _ _ p => p)
        { num_particles := 3, num_iter_fit := 2,
          train_x := [[1], [2]], train_t := [5, 6],
          particles := [(), (), ()], y_mean := 0, y_std := 1,
          fitted := false }).2.length = 2 ∧
     (svgdTile3 3 [[1], [2]]).length = 3 ∧
     (∀ b ∈ svgdTile3 3 [[1], [2]],
       b = [[1], [2]] ∧ b.length = 2 ∧ ∀ row ∈ b, row.length = 1) ∧
     (svgdTile2 3 [5, 6]).length = 3 ∧
     (∀ b ∈ svgdTile2 3 [5, 6], b = [5, 6] ∧ b.length = 2) ∧
     (svgdFit (W := Unit) (fun _ _ _ _ p => p)
        { num_particles := 3, num_iter_fit := 2,
          train_x := [[1], [2]], train_t := [5, 6],
          particles := [(), (), ()], y_mean := 0, y_std := 1,
          fitted := false }).1.fitted = true) :=
  svgdFit_step_structure (fun _ _ _ _ p => p)
    { num_particles := 3, num_iter_fit := 2,
      train_x := [[1], [2]], train_t := [5, 6],
      particles := [(), (), ()], y_mean := 0, y_std := 1, fitted := false }
    2 1 (by decide) (by decide) (by decide)

/-- C5: the particle ensemble is created once at construction by drawing
`num_particles` prior samples, and its leading dimension equals
`num_particles` before and after any number of `fit` calls: `fit`
neither creates, destroys nor resizes particles. -/
theorem svgd_particle_count_invariant {W : Type} (draw : ℕ → W)
    (dh : DataHandlingResult) (mm : SVGDMeanArg) (cm : SVGDCovarArg)
    (kern : SteinKernelArg) (o : OptimizerArg) (P niter : ℕ)
    (dir : List W → List (List (List ℚ)) → List (List ℚ) → ℕ → W → W)
    (m0 : SVGDModel W)
    (h : svgdInit draw dh mm cm kern o P niter = some m0) :
    m0.particles = sampleParamsFromPrior draw P ∧
    m0.particles.length = P ∧
    ∀ j : ℕ, (svgdFitIter dir j m0).particles.length = P := by
  have hfields : m0.particles = sampleParamsFromPrior draw P := by
    unfold svgdInit at h
    split at h
    · obtain rfl := (Option.some.injEq ..).mp h
      rfl
    · exact absurd h (by simp)
  have hlen : m0.particles.length = P := by
    rw [hfields]
    unfold sampleParamsFromPrior
    rw [List.length_map, List.length_range]
  refine ⟨hfields, hlen, ?_⟩
  intro j
  induction j with
  | zero => exact hlen
  | succ j ih =>
    unfold svgdFitIter at ih ⊢
    rw [Function.iterate_succ_apply', svgdFit_particles_length, ih]

/-- Witness for C5 with three particles and two fit calls. -/
theorem svgd_particle_count_invariant_witness :
    (svgdInit (W := Unit) (fun _ => ())
        { train_x := [[1]], train_t2 := [[2]], y_mean := 0, y_std := 1 }
        SVGDMeanArg.NN SVGDCovarArg.SE SteinKernelArg.RBF OptimizerArg.Adam
        3 4).getD
      { num_particles := 0, num_iter_fit := 0, train_x := [],
        train_t := [], particles := [], y_mean := 0, y_std := 1,
        fitted := false } =
      { num_particles := 3, num_iter_fit := 4, train_x := [[1]],
        train_t := [2], particles := [(), (), ()], y_mean := 0, y_std := 1,
        fitted := false } ∧
    ({ num_particles := 3, num_iter_fit := 4, train_x := [[1]],
       train_t := [2], particles := [(), (), ()], y_mean := 0, y_std := 1,
       fitted := false } : SVGDModel Unit).particles =
      sampleParamsFromPrior (fun _ => ()) 3 ∧
    ({ num_particles := 3, num_iter_fit := 4, train_x := [[1]],
       train_t := [2], particles := [(), (), ()], y_mean := 0, y_std := 1,
       fitted := false } : SVGDModel Unit).particles.length = 3 ∧
    (svgdFitIter (W := Unit) (fun _ _ _ _ p => p) 2
      { num_particles := 3, num_iter_fit := 4, train_x := [[1]],
        train_t := [2], particles := [(), (), ()], y_mean := 0, y_std := 1,
        fitted := false }).particles.length = 3 := by
  have h := svgd_particle_count_invariant (W := Unit) (fun _ => ())
    { train_x := [[1]], train_t2 := [[2]], y_mean := 0, y_std := 1 }
    SVGDMeanArg.NN SVGDCovarArg.SE SteinKernelArg.RBF OptimizerArg.Adam
    3 4 (fun _ _ _ _ p => p)
    { num_particles := 3, num_iter_fit := 4, train_x := [[1]],
      train_t := [2], particles := [(), (), ()], y_mean := 0, y_std := 1,
      fitted := false } (by rfl)
  exact ⟨rfl, h.1, h.2.1, h.2.2 2⟩

/-- C4: `predict` wraps the batched per-particle predictive distribution
over the tiled (normalized) query inputs in the affine de-normalization
transform with the stored target mean and std, wraps that in an
equal-weight mixture over the particle dimension (`batched=True`), and
returns the mixture object when `return_density` is true and otherwise
the materialized `(mean, std)` pair of that mixture; the query tile has
leading dimension `num_particles` and every slice is the same query. -/
theorem svgdPredict_structure {W : Type}
    (distMean distStd : PredDist W → List ℚ)
    (normalizeX : List (List ℚ) → List (List ℚ))
    (m : SVGDModel W) (test_x : NPArray) :
    (svgdPredict distMean distStd normalizeX m test_x true =
      Sum.inl (PredDist.equalWeightedMixture
        (PredDist.affineTransformed
          (PredDist.gpBatch m.particles
            (svgdTile3 m.num_particles m.train_x)
            (svgdTile2 m.num_particles m.train_t)
            (svgdTile3 m.num_particles
              (normalizeX (if test_x.ndim = 1 then test_x.expandDimsLast
                else test_x).toMatrix)))
          m.y_mean m.y_std) true)) ∧
    (svgdPredict distMean distStd normalizeX m test_x false =
      Sum.inr
        (distMean (PredDist.equalWeightedMixture
          (PredDist.affineTransformed
            (PredDist.gpBatch m.particles
              (svgdTile3 m.num_particles m.train_x)
              (svgdTile2 m.num_particles m.train_t)
              (svgdTile3 m.num_particles
                (normalizeX (if test_x.ndim = 1 then test_x.expandDimsLast
                  else test_x).toMatrix)))
            m.y_mean m.y_std) true),
         distStd (PredDist.equalWeightedMixture
          (PredDist.affineTransformed
            (PredDist.gpBatch m.particles
              (svgdTile3 m.num_particles m.train_x)
              (svgdTile2 m.num_particles m.train_t)
              (svgdTile3 m.num_particles
                (normalizeX (if test_x.ndim = 1 then test_x.expandDimsLast
                  else test_x).toMatrix)))
            m.y_mean m.y_std) true))) ∧
    (svgdTile3 m.num_particles
      (normalizeX (if test_x.ndim = 1 then test_x.expandDimsLast
        else test_x).toMatrix)).length = m.num_particles ∧
    ∀ b ∈ svgdTile3 m.num_particles
      (normalizeX (if test_x.ndim = 1 then test_x.expandDimsLast
        else test_x).toMatrix),
      b = normalizeX (if test_x.ndim = 1 then test_x.expandDimsLast
        else test_x).toMatrix := by
  refine ⟨rfl, rfl, List.length_replicate .., ?_⟩
  intro b hb
  exact List.eq_of_mem_replicate hb

end PacohGP
